import Mathlib

/-!
Verification of the pagination core of `resources.go` (usabilla/gobilla).

The source file is embedded shallowly:

* `Page α` carries the three fields of the decoded API responses that
  `resources.go` reads: `Items`, `HasMore`, `LastTimestamp`.
* `Request` mirrors the `Request{method, auth, uri, params}` literals built
  by every `Get` method; the HTTP transport (`request.Get()`) and the JSON
  decoders (`NewFeedbackResponse`, ...) are opaque parameters, matching the
  fact that they live outside `resources.go`.
* Each `Get` method returns a `GetResult`: `panicked` models the
  `panic(err)` executed when the transport errs, `err` models a non-nil
  error returned together with a nil response (the decoder's error), and
  `ok` a decoded response.
* The four channel workers (`items`, `campaignResults`, `campaignStats`,
  `appItems`) are embedded as trace-producing functions.  A worker run is
  driven by the list of results the server gives to its successive
  fetches.  The produced trace records, in program order:
  `Ev.send a` (one unbuffered channel send, which in Go completes exactly
  when the consumer receives `a`), `Ev.fetch ps` (a `Get` call with
  parameter map `ps`), `Ev.close` (a `close` of the channel) and
  `Ev.panic` (the `panic(err)` after a failed fetch).  Each goroutine
  performs its sends, then its fetch, and spawns its successor only after
  that fetch returned, so the run of a whole stream is this single
  sequential trace.
-/

/-- One decoded page, the shape of `FeedbackResponse`, `CampaignResultResponse`,
`CampaignStatsResponse` and `AppFeedbackResponse` as used by `resources.go`:
an ordered item list `Items`, the continuation flag `HasMore` and the cursor
watermark `LastTimestamp` (an `int64` in Go). -/
structure Page (α : Type) where
  items : List α
  hasMore : Bool
  lastTimestamp : Int
deriving DecidableEq

/-- A placeholder page used only as the default of `List.getD`. -/
def defaultPage {α : Type} : Page α :=
  { items := [], hasMore := false, lastTimestamp := 0 }

/-- The `Request` value each `Get` method constructs before calling the
transport. -/
structure Request where
  method : String
  auth : String
  uri : String
  params : List (String × String)
deriving DecidableEq

/-- Canonical URI constants of `resources.go`. -/
def websitesURI : String := "/live/websites"

def buttonURI : String := websitesURI ++ "/button"

def campaignURI : String := websitesURI ++ "/campaign"

def appsURI : String := "/live/apps"

def emailURI : String := "/live/email"

def emailButtonURI : String := emailURI ++ "/button"

/-- `fmt.Sprintf(feedbackURI, base, id)` where `feedbackURI = "%s/%s/feedback"`:
each `%s` is substituted in order. -/
def feedbackURIFor (base id : String) : String :=
  base ++ "/" ++ id ++ "/feedback"

/-- `fmt.Sprintf(campaignResultsURI, id)` where
`campaignResultsURI = campaignURI + "/%s/results"`. -/
def campaignResultsURIFor (id : String) : String :=
  campaignURI ++ "/" ++ id ++ "/results"

/-- `fmt.Sprintf(campaignStatsURI, id)` where
`campaignStatsURI = campaignURI + "/%s/stats"`. -/
def campaignStatsURIFor (id : String) : String :=
  campaignURI ++ "/" ++ id ++ "/stats"

/-- Outcome of a `Get` method: `panicked` is the `panic(err)` taken when the
transport call `request.Get()` returns an error; `err e` is the `(nil, err)`
return when the response decoder fails; `ok resp` is a successful decode. -/
inductive GetResult (ρ : Type) where
  | panicked
  | err (e : String)
  | ok (resp : ρ)
deriving DecidableEq

/-- The request built by `Buttons.Get`. -/
def Buttons.request (auth : String) (params : List (String × String)) : Request :=
  { method := "GET", auth := auth, uri := buttonURI, params := params }

/-- `func (b *Buttons) Get(params)`: build the request, call the transport,
panic on a transport error, otherwise decode. -/
def Buttons.Get {ρ : Type} (transport : Request → Except String String)
    (decode : String → Except String ρ) (auth : String)
    (params : List (String × String)) : GetResult ρ :=
  match transport (Buttons.request auth params) with
  | Except.error _ => GetResult.panicked
  | Except.ok data =>
    match decode data with
    | Except.error e => GetResult.err e
    | Except.ok resp => GetResult.ok resp

/-- The request built by `FeedbackItems.Get` (uri =
`fmt.Sprintf(feedbackURI, buttonURI, buttonID)`). -/
def FeedbackItems.request (auth buttonID : String)
    (params : List (String × String)) : Request :=
  { method := "GET", auth := auth, uri := feedbackURIFor buttonURI buttonID,
    params := params }

/-- `func (f *FeedbackItems) Get(buttonID, params)`. -/
def FeedbackItems.Get {ρ : Type} (transport : Request → Except String String)
    (decode : String → Except String ρ) (auth buttonID : String)
    (params : List (String × String)) : GetResult ρ :=
  match transport (FeedbackItems.request auth buttonID params) with
  | Except.error _ => GetResult.panicked
  | Except.ok data =>
    match decode data with
    | Except.error e => GetResult.err e
    | Except.ok resp => GetResult.ok resp

/-- The request built by `Campaigns.Get`. -/
def Campaigns.request (auth : String) (params : List (String × String)) : Request :=
  { method := "GET", auth := auth, uri := campaignURI, params := params }

/-- `func (c *Campaigns) Get(params)`. -/
def Campaigns.Get {ρ : Type} (transport : Request → Except String String)
    (decode : String → Except String ρ) (auth : String)
    (params : List (String × String)) : GetResult ρ :=
  match transport (Campaigns.request auth params) with
  | Except.error _ => GetResult.panicked
  | Except.ok data =>
    match decode data with
    | Except.error e => GetResult.err e
    | Except.ok resp => GetResult.ok resp

/-- The request built by `CampaignResults.Get` (uri =
`fmt.Sprintf(campaignResultsURI, campaignID)`). -/
def CampaignResults.request (auth campaignID : String)
    (params : List (String × String)) : Request :=
  { method := "GET", auth := auth, uri := campaignResultsURIFor campaignID,
    params := params }

/-- `func (r *CampaignResults) Get(campaignID, params)`. -/
def CampaignResults.Get {ρ : Type} (transport : Request → Except String String)
    (decode : String → Except String ρ) (auth campaignID : String)
    (params : List (String × String)) : GetResult ρ :=
  match transport (CampaignResults.request auth campaignID params) with
  | Except.error _ => GetResult.panicked
  | Except.ok data =>
    match decode data with
    | Except.error e => GetResult.err e
    | Except.ok resp => GetResult.ok resp

/-- The request built by `CampaignStats.Get` (uri =
`fmt.Sprintf(campaignStatsURI, campaignID)`). -/
def CampaignStats.request (auth campaignID : String)
    (params : List (String × String)) : Request :=
  { method := "GET", auth := auth, uri := campaignStatsURIFor campaignID,
    params := params }

/-- `func (cs *CampaignStats) Get(campaignID, params)`. -/
def CampaignStats.Get {ρ : Type} (transport : Request → Except String String)
    (decode : String → Except String ρ) (auth campaignID : String)
    (params : List (String × String)) : GetResult ρ :=
  match transport (CampaignStats.request auth campaignID params) with
  | Except.error _ => GetResult.panicked
  | Except.ok data =>
    match decode data with
    | Except.error e => GetResult.err e
    | Except.ok resp => GetResult.ok resp

/-- The request built by `Apps.Get`. -/
def Apps.request (auth : String) (params : List (String × String)) : Request :=
  { method := "GET", auth := auth, uri := appsURI, params := params }

/-- `func (a *Apps) Get(params)`. -/
def Apps.Get {ρ : Type} (transport : Request → Except String String)
    (decode : String → Except String ρ) (auth : String)
    (params : List (String × String)) : GetResult ρ :=
  match transport (Apps.request auth params) with
  | Except.error _ => GetResult.panicked
  | Except.ok data =>
    match decode data with
    | Except.error e => GetResult.err e
    | Except.ok resp => GetResult.ok resp

/-- The request built by `AppFeedbackItems.Get` (uri =
`fmt.Sprintf(feedbackURI, appsURI, appID)`). -/
def AppFeedbackItems.request (auth appID : String)
    (params : List (String × String)) : Request :=
  { method := "GET", auth := auth, uri := feedbackURIFor appsURI appID,
    params := params }

/-- `func (af *AppFeedbackItems) Get(appID, params)`. -/
def AppFeedbackItems.Get {ρ : Type} (transport : Request → Except String String)
    (decode : String → Except String ρ) (auth appID : String)
    (params : List (String × String)) : GetResult ρ :=
  match transport (AppFeedbackItems.request auth appID params) with
  | Except.error _ => GetResult.panicked
  | Except.ok data =>
    match decode data with
    | Except.error e => GetResult.err e
    | Except.ok resp => GetResult.ok resp

/-- The request built by `EmailButtons.Get`. -/
def EmailButtons.request (auth : String) (params : List (String × String)) : Request :=
  { method := "GET", auth := auth, uri := emailButtonURI, params := params }

/-- `func (eb *EmailButtons) Get(params)`. -/
def EmailButtons.Get {ρ : Type} (transport : Request → Except String String)
    (decode : String → Except String ρ) (auth : String)
    (params : List (String × String)) : GetResult ρ :=
  match transport (EmailButtons.request auth params) with
  | Except.error _ => GetResult.panicked
  | Except.ok data =>
    match decode data with
    | Except.error e => GetResult.err e
    | Except.ok resp => GetResult.ok resp

/-- Outcome of `Iterate`, mirroring its Go signature
`func (f *FeedbackItems) Iterate(buttonID, params) chan FeedbackItem`:
either the call panics (`panicked`, when the synchronous first `Get` panics
or returns a non-nil error) or it returns the channel, whose worker was
started with the first decoded page (`channel firstPage`).  The type has no
error-carrying form because the Go signature returns no error. -/
inductive IterateResult (α : Type) where
  | panicked
  | channel (firstPage : Page α)
deriving DecidableEq

/-- `func (f *FeedbackItems) Iterate(buttonID, params)`: synchronous first
fetch, panic on `err != nil`, otherwise make the channel and start the
`items` worker with the first response. -/
def FeedbackItems.Iterate {α : Type} (transport : Request → Except String String)
    (decode : String → Except String (Page α)) (auth buttonID : String)
    (params : List (String × String)) : IterateResult α :=
  match FeedbackItems.Get transport decode auth buttonID params with
  | GetResult.panicked => IterateResult.panicked
  | GetResult.err _ => IterateResult.panicked
  | GetResult.ok resp => IterateResult.channel resp

/-- One observable event of a worker run: an unbuffered channel send (which
in Go completes exactly when the consumer receives the item), a `Get` call
carrying its parameter map, a `close` of the channel, or a `panic` after a
failed fetch. -/
inductive Ev (α : Type) where
  | send (a : α)
  | fetch (params : List (String × String))
  | close
  | panic
deriving DecidableEq

/-- The parameter map built by every worker before re-fetching:
`map[string]string{"since": strconv.FormatInt(resp.LastTimestamp, 10)}`.
`toString` on `Int` is Go's `strconv.FormatInt(_, 10)` (decimal, `-` sign). -/
def sinceParams {α : Type} (resp : Page α) : List (String × String) :=
  [("since", toString resp.lastTimestamp)]

/-- `func items(fic, resp, f, buttonID)`: send every item of `resp` on the
channel, close the channel when `HasMore` is false, otherwise fetch with the
`since` watermark and either continue with the new response (the spawned
successor goroutine) or panic if the fetch failed.  The run is driven by
`feed`, the results the server returns to the successive fetches. -/
def items {α : Type} : List (GetResult (Page α)) → Page α → List (Ev α)
  | feed, resp =>
    resp.items.map Ev.send ++
      (if !resp.hasMore then [Ev.close]
       else
        Ev.fetch (sinceParams resp) ::
          (match feed with
           | GetResult.ok resp2 :: feed2 => items feed2 resp2
           | GetResult.err _ :: _ => [Ev.panic]
           | GetResult.panicked :: _ => [Ev.panic]
           | [] => []))

/-- `func campaignResults(crc, resp, r, campaignID)`: the campaign-results
worker, a verbatim copy of the pattern of `items`. -/
def campaignResults {α : Type} : List (GetResult (Page α)) → Page α → List (Ev α)
  | feed, resp =>
    resp.items.map Ev.send ++
      (if !resp.hasMore then [Ev.close]
       else
        Ev.fetch (sinceParams resp) ::
          (match feed with
           | GetResult.ok resp2 :: feed2 => campaignResults feed2 resp2
           | GetResult.err _ :: _ => [Ev.panic]
           | GetResult.panicked :: _ => [Ev.panic]
           | [] => []))

/-- `func campaignStats(csc, resp, cs, campaignID)`: the campaign-stats
worker, a verbatim copy of the pattern of `items`. -/
def campaignStats {α : Type} : List (GetResult (Page α)) → Page α → List (Ev α)
  | feed, resp =>
    resp.items.map Ev.send ++
      (if !resp.hasMore then [Ev.close]
       else
        Ev.fetch (sinceParams resp) ::
          (match feed with
           | GetResult.ok resp2 :: feed2 => campaignStats feed2 resp2
           | GetResult.err _ :: _ => [Ev.panic]
           | GetResult.panicked :: _ => [Ev.panic]
           | [] => []))

/-- `func appItems(afic, resp, af, appID)`: the app-feedback worker, a
verbatim copy of the pattern of `items`. -/
def appItems {α : Type} : List (GetResult (Page α)) → Page α → List (Ev α)
  | feed, resp =>
    resp.items.map Ev.send ++
      (if !resp.hasMore then [Ev.close]
       else
        Ev.fetch (sinceParams resp) ::
          (match feed with
           | GetResult.ok resp2 :: feed2 => appItems feed2 resp2
           | GetResult.err _ :: _ => [Ev.panic]
           | GetResult.panicked :: _ => [Ev.panic]
           | [] => []))

/-- The pages whose items a run delivers: the first page, then the pages of
the successful fetch results, stopping at the first page without `HasMore`
or at the first fetch that does not return a page. -/
def runPages {α : Type} : List (GetResult (Page α)) → Page α → List (Page α)
  | feed, resp =>
    if !resp.hasMore then [resp]
    else
      match feed with
      | GetResult.ok resp2 :: feed2 => resp :: runPages feed2 resp2
      | _ => [resp]

/-- How many fetch calls (after the open-time one) the run performs. -/
def numFetches {α : Type} : List (GetResult (Page α)) → Page α → Nat
  | feed, resp =>
    if !resp.hasMore then 0
    else
      match feed with
      | GetResult.ok resp2 :: feed2 => numFetches feed2 resp2 + 1
      | _ => 1

/-- A complete successful page chain: every page except the last has
`hasMore = true` and the last has `hasMore = false`. -/
def chainOK {α : Type} : Page α → List (Page α) → Bool
  | p, [] => !p.hasMore
  | p, q :: qs => p.hasMore && chainOK q qs

/-- A chain in which every page, the last included, has `hasMore = true`
(so one more fetch follows the last page). -/
def chainMore {α : Type} : Page α → List (Page α) → Bool
  | p, [] => p.hasMore
  | p, q :: qs => p.hasMore && chainMore q qs

/-- The items delivered on the channel during a trace, in order. -/
def emittedOf {α : Type} : List (Ev α) → List α
  | [] => []
  | Ev.send a :: tr => a :: emittedOf tr
  | _ :: tr => emittedOf tr

/-- Number of channel sends in a trace. -/
def sendCount {α : Type} : List (Ev α) → Nat
  | [] => 0
  | Ev.send _ :: tr => sendCount tr + 1
  | _ :: tr => sendCount tr

/-- Number of fetch calls in a trace. -/
def fetchCount {α : Type} : List (Ev α) → Nat
  | [] => 0
  | Ev.fetch _ :: tr => fetchCount tr + 1
  | _ :: tr => fetchCount tr

/-- Number of channel closes in a trace. -/
def closeCount {α : Type} : List (Ev α) → Nat
  | [] => 0
  | Ev.close :: tr => closeCount tr + 1
  | _ :: tr => closeCount tr

/-! ## Unfolding equations for the worker and its run bookkeeping -/

theorem items_noMore {α : Type} (feed : List (GetResult (Page α))) (p : Page α)
    (h : p.hasMore = false) :
    items feed p = p.items.map Ev.send ++ [Ev.close] := by
  rw [items.eq_def]
  simp [h]

theorem items_more_ok {α : Type} (feed2 : List (GetResult (Page α))) (p q : Page α)
    (h : p.hasMore = true) :
    items (GetResult.ok q :: feed2) p =
      p.items.map Ev.send ++ Ev.fetch (sinceParams p) :: items feed2 q := by
  rw [items.eq_def]
  simp [h]

theorem items_more_nil {α : Type} (p : Page α) (h : p.hasMore = true) :
    items [] p = p.items.map Ev.send ++ [Ev.fetch (sinceParams p)] := by
  rw [items.eq_def]
  simp [h]

theorem items_more_panicked {α : Type} (feed2 : List (GetResult (Page α))) (p : Page α)
    (h : p.hasMore = true) :
    items (GetResult.panicked :: feed2) p =
      p.items.map Ev.send ++ [Ev.fetch (sinceParams p), Ev.panic] := by
  rw [items.eq_def]
  simp [h]

theorem items_more_err {α : Type} (feed2 : List (GetResult (Page α))) (p : Page α)
    (e : String) (h : p.hasMore = true) :
    items (GetResult.err e :: feed2) p =
      p.items.map Ev.send ++ [Ev.fetch (sinceParams p), Ev.panic] := by
  rw [items.eq_def]
  simp [h]

theorem emittedOf_append {α : Type} (a b : List (Ev α)) :
    emittedOf (a ++ b) = emittedOf a ++ emittedOf b := by
  induction a with
  | nil => rfl
  | cons e tr ih => cases e <;> simp [emittedOf, ih]

theorem emittedOf_sends {α : Type} (l : List α) :
    emittedOf (l.map Ev.send) = l := by
  induction l with
  | nil => rfl
  | cons a l ih => simp [emittedOf, ih]

theorem sendCount_append {α : Type} (a b : List (Ev α)) :
    sendCount (a ++ b) = sendCount a + sendCount b := by
  induction a with
  | nil => simp [sendCount]
  | cons e tr ih => cases e <;> simp [sendCount, ih] <;> omega

theorem sendCount_sends {α : Type} (l : List α) :
    sendCount (l.map Ev.send) = l.length := by
  induction l with
  | nil => rfl
  | cons a l ih => simp [sendCount, ih]

theorem fetchCount_append {α : Type} (a b : List (Ev α)) :
    fetchCount (a ++ b) = fetchCount a + fetchCount b := by
  induction a with
  | nil => simp [fetchCount]
  | cons e tr ih => cases e <;> simp [fetchCount, ih] <;> omega

theorem fetchCount_sends {α : Type} (l : List α) :
    fetchCount (l.map Ev.send) = 0 := by
  induction l with
  | nil => rfl
  | cons a l ih => simp [fetchCount, ih]

theorem closeCount_append {α : Type} (a b : List (Ev α)) :
    closeCount (a ++ b) = closeCount a + closeCount b := by
  induction a with
  | nil => simp [closeCount]
  | cons e tr ih => cases e <;> simp [closeCount, ih] <;> omega

theorem closeCount_sends {α : Type} (l : List α) :
    closeCount (l.map Ev.send) = 0 := by
  induction l with
  | nil => rfl
  | cons a l ih => simp [closeCount, ih]

theorem runPages_noMore {α : Type} (feed : List (GetResult (Page α))) (p : Page α)
    (h : p.hasMore = false) : runPages feed p = [p] := by
  rw [runPages.eq_def]
  simp [h]

theorem runPages_more_ok {α : Type} (feed2 : List (GetResult (Page α))) (p q : Page α)
    (h : p.hasMore = true) :
    runPages (GetResult.ok q :: feed2) p = p :: runPages feed2 q := by
  rw [runPages.eq_def]
  simp [h]

theorem runPages_more_nil {α : Type} (p : Page α) (h : p.hasMore = true) :
    runPages [] p = [p] := by
  rw [runPages.eq_def]
  simp [h]

theorem runPages_more_panicked {α : Type} (feed2 : List (GetResult (Page α))) (p : Page α)
    (h : p.hasMore = true) : runPages (GetResult.panicked :: feed2) p = [p] := by
  rw [runPages.eq_def]
  simp [h]

theorem runPages_more_err {α : Type} (feed2 : List (GetResult (Page α))) (p : Page α)
    (e : String) (h : p.hasMore = true) :
    runPages (GetResult.err e :: feed2) p = [p] := by
  rw [runPages.eq_def]
  simp [h]

theorem numFetches_noMore {α : Type} (feed : List (GetResult (Page α))) (p : Page α)
    (h : p.hasMore = false) : numFetches feed p = 0 := by
  rw [numFetches.eq_def]
  simp [h]

theorem numFetches_more_ok {α : Type} (feed2 : List (GetResult (Page α))) (p q : Page α)
    (h : p.hasMore = true) :
    numFetches (GetResult.ok q :: feed2) p = numFetches feed2 q + 1 := by
  rw [numFetches.eq_def]
  simp [h]

theorem numFetches_more_nil {α : Type} (p : Page α) (h : p.hasMore = true) :
    numFetches [] p = 1 := by
  rw [numFetches.eq_def]
  simp [h]

theorem numFetches_more_panicked {α : Type} (feed2 : List (GetResult (Page α))) (p : Page α)
    (h : p.hasMore = true) : numFetches (GetResult.panicked :: feed2) p = 1 := by
  rw [numFetches.eq_def]
  simp [h]

theorem numFetches_more_err {α : Type} (feed2 : List (GetResult (Page α))) (p : Page α)
    (e : String) (h : p.hasMore = true) :
    numFetches (GetResult.err e :: feed2) p = 1 := by
  rw [numFetches.eq_def]
  simp [h]

/-! ## Run lemmas: complete runs, failing runs, and the position of each fetch -/

theorem items_chainOK {α : Type} (qs : List (Page α)) (p : Page α)
    (h : chainOK p qs = true) :
    emittedOf (items (qs.map GetResult.ok) p) = ((p :: qs).map Page.items).flatten
    ∧ ∃ u, items (qs.map GetResult.ok) p = u ++ [Ev.close] ∧ closeCount u = 0 := by
  induction qs generalizing p with
  | nil =>
    have hp : p.hasMore = false := by
      simpa [chainOK] using h
    rw [List.map_nil, items_noMore [] p hp]
    refine ⟨?_, p.items.map Ev.send, rfl, closeCount_sends p.items⟩
    simp [emittedOf_append, emittedOf_sends, emittedOf]
  | cons q qs ih =>
    have hp : p.hasMore = true := by
      have h2 := h
      simp [chainOK, Bool.and_eq_true] at h2
      exact h2.1
    have hq : chainOK q qs = true := by
      simp [chainOK, Bool.and_eq_true] at h
      exact h.2
    obtain ⟨ihE, u2, hu2, hc2⟩ := ih q hq
    rw [List.map_cons, items_more_ok (qs.map GetResult.ok) p q hp]
    constructor
    · rw [emittedOf_append, emittedOf_sends]
      have hstep : emittedOf (Ev.fetch (sinceParams p) :: items (qs.map GetResult.ok) q)
          = emittedOf (items (qs.map GetResult.ok) q) := by
        simp [emittedOf]
      rw [hstep, ihE]
      simp
    · refine ⟨p.items.map Ev.send ++ Ev.fetch (sinceParams p) :: u2, ?_, ?_⟩
      · rw [hu2]
        simp
      · rw [closeCount_append]
        simp [closeCount, hc2, closeCount_sends]

theorem items_chainMore {α : Type} (qs : List (Page α)) (p : Page α)
    (h : chainMore p qs = true) :
    emittedOf (items (qs.map GetResult.ok ++ [GetResult.panicked]) p)
        = ((p :: qs).map Page.items).flatten
    ∧ closeCount (items (qs.map GetResult.ok ++ [GetResult.panicked]) p) = 0
    ∧ ∃ u, items (qs.map GetResult.ok ++ [GetResult.panicked]) p = u ++ [Ev.panic] := by
  induction qs generalizing p with
  | nil =>
    have hp : p.hasMore = true := by
      simpa [chainMore] using h
    rw [List.map_nil, List.nil_append, items_more_panicked [] p hp]
    refine ⟨?_, ?_, p.items.map Ev.send ++ [Ev.fetch (sinceParams p)], by simp⟩
    · simp [emittedOf_append, emittedOf_sends, emittedOf]
    · rw [closeCount_append]
      simp [closeCount, closeCount_sends]
  | cons q qs ih =>
    have hp : p.hasMore = true := by
      simp [chainMore, Bool.and_eq_true] at h
      exact h.1
    have hq : chainMore q qs = true := by
      simp [chainMore, Bool.and_eq_true] at h
      exact h.2
    obtain ⟨ihE, ihC, u2, hu2⟩ := ih q hq
    rw [List.map_cons, List.cons_append,
      items_more_ok (qs.map GetResult.ok ++ [GetResult.panicked]) p q hp]
    refine ⟨?_, ?_, ?_⟩
    · rw [emittedOf_append, emittedOf_sends]
      have hstep : emittedOf (Ev.fetch (sinceParams p)
            :: items (qs.map GetResult.ok ++ [GetResult.panicked]) q)
          = emittedOf (items (qs.map GetResult.ok ++ [GetResult.panicked]) q) := by
        simp [emittedOf]
      rw [hstep, ihE]
      simp
    · rw [closeCount_append]
      simp [closeCount, closeCount_sends, ihC]
    · refine ⟨p.items.map Ev.send ++ Ev.fetch (sinceParams p) :: u2, ?_⟩
      rw [hu2]
      simp

theorem items_fetch_split {α : Type} (feed : List (GetResult (Page α))) (p : Page α)
    (n : Nat) (hn : n < numFetches feed p) :
    ∃ u v, items feed p
        = u ++ Ev.fetch (sinceParams ((runPages feed p).getD n defaultPage)) :: v
      ∧ fetchCount u = n
      ∧ sendCount u = (((runPages feed p).take (n + 1)).map (fun q => q.items.length)).sum := by
  induction feed generalizing p n with
  | nil =>
    by_cases hp : p.hasMore = true
    · have h1 : numFetches ([] : List (GetResult (Page α))) p = 1 := numFetches_more_nil p hp
      have hn0 : n = 0 := by omega
      subst hn0
      refine ⟨p.items.map Ev.send, [], ?_, fetchCount_sends p.items, ?_⟩
      · rw [items_more_nil p hp, runPages_more_nil p hp]
        simp
      · rw [runPages_more_nil p hp, sendCount_sends]
        simp
    · have hp2 : p.hasMore = false := by
        cases hmp : p.hasMore
        · rfl
        · exact absurd hmp hp
      rw [numFetches_noMore [] p hp2] at hn
      omega
  | cons r feed2 ih =>
    by_cases hp : p.hasMore = true
    · cases r with
      | ok q =>
        cases n with
        | zero =>
          refine ⟨p.items.map Ev.send, items feed2 q, ?_, fetchCount_sends p.items, ?_⟩
          · rw [items_more_ok feed2 p q hp, runPages_more_ok feed2 p q hp]
            simp
          · rw [runPages_more_ok feed2 p q hp, sendCount_sends]
            simp
        | succ m =>
          have hm : m < numFetches feed2 q := by
            rw [numFetches_more_ok feed2 p q hp] at hn
            omega
          obtain ⟨u2, v, heq, hf, hs⟩ := ih q m hm
          refine ⟨p.items.map Ev.send ++ Ev.fetch (sinceParams p) :: u2, v, ?_, ?_, ?_⟩
          · rw [items_more_ok feed2 p q hp, runPages_more_ok feed2 p q hp, heq]
            simp
          · rw [fetchCount_append, fetchCount_sends]
            simp [fetchCount, hf]
          · rw [sendCount_append, sendCount_sends, runPages_more_ok feed2 p q hp]
            simp [sendCount, hs]
      | err e =>
        have h1 : numFetches (GetResult.err e :: feed2) p = 1 :=
          numFetches_more_err feed2 p e hp
        have hn0 : n = 0 := by omega
        subst hn0
        refine ⟨p.items.map Ev.send, [Ev.panic], ?_, fetchCount_sends p.items, ?_⟩
        · rw [items_more_err feed2 p e hp, runPages_more_err feed2 p e hp]
          simp
        · rw [runPages_more_err feed2 p e hp, sendCount_sends]
          simp
      | panicked =>
        have h1 : numFetches (GetResult.panicked :: feed2) p = 1 :=
          numFetches_more_panicked feed2 p hp
        have hn0 : n = 0 := by omega
        subst hn0
        refine ⟨p.items.map Ev.send, [Ev.panic], ?_, fetchCount_sends p.items, ?_⟩
        · rw [items_more_panicked feed2 p hp, runPages_more_panicked feed2 p hp]
          simp
        · rw [runPages_more_panicked feed2 p hp, sendCount_sends]
          simp
    · have hp2 : p.hasMore = false := by
        cases hmp : p.hasMore
        · rfl
        · exact absurd hmp hp
      rw [numFetches_noMore (r :: feed2) p hp2] at hn
      omega

theorem numFetches_le_runPages_length {α : Type} (feed : List (GetResult (Page α)))
    (p : Page α) : numFetches feed p ≤ (runPages feed p).length := by
  induction feed generalizing p with
  | nil =>
    by_cases hp : p.hasMore = true
    · rw [numFetches_more_nil p hp, runPages_more_nil p hp]
      simp
    · have hp2 : p.hasMore = false := by
        cases hmp : p.hasMore
        · rfl
        · exact absurd hmp hp
      rw [numFetches_noMore [] p hp2, runPages_noMore [] p hp2]
      simp
  | cons r feed2 ih =>
    by_cases hp : p.hasMore = true
    · cases r with
      | ok q =>
        rw [numFetches_more_ok feed2 p q hp, runPages_more_ok feed2 p q hp]
        simpa using ih q
      | err e =>
        rw [numFetches_more_err feed2 p e hp, runPages_more_err feed2 p e hp]
        simp
      | panicked =>
        rw [numFetches_more_panicked feed2 p hp, runPages_more_panicked feed2 p hp]
        simp
    · have hp2 : p.hasMore = false := by
        cases hmp : p.hasMore
        · rfl
        · exact absurd hmp hp
      rw [numFetches_noMore (r :: feed2) p hp2, runPages_noMore (r :: feed2) p hp2]
      simp

theorem sum_take_succ_getD {α : Type} (l : List (Page α)) (n : Nat) (h : n < l.length) :
    ((l.take (n + 1)).map (fun q => q.items.length)).sum
      = ((l.take n).map (fun q => q.items.length)).sum
        + (l.getD n defaultPage).items.length := by
  induction l generalizing n with
  | nil => simp at h
  | cons x l ih =>
    cases n with
    | zero => simp
    | succ m =>
      have hm : m < l.length := by simpa using h
      simp only [List.take_succ_cons, List.map_cons, List.sum_cons, List.getD_cons_succ, ih m hm]
      omega

theorem campaignResults_eq_items {α : Type} (feed : List (GetResult (Page α))) (p : Page α) :
    campaignResults feed p = items feed p := by
  induction feed generalizing p with
  | nil => rfl
  | cons r feed2 ih =>
    cases r with
    | ok resp2 =>
      show List.map Ev.send p.items ++
          (if (!p.hasMore) = true then [Ev.close]
           else Ev.fetch (sinceParams p) :: campaignResults feed2 resp2) =
        List.map Ev.send p.items ++
          (if (!p.hasMore) = true then [Ev.close]
           else Ev.fetch (sinceParams p) :: items feed2 resp2)
      rw [ih]
    | err e => rfl
    | panicked => rfl

theorem campaignStats_eq_items {α : Type} (feed : List (GetResult (Page α))) (p : Page α) :
    campaignStats feed p = items feed p := by
  induction feed generalizing p with
  | nil => rfl
  | cons r feed2 ih =>
    cases r with
    | ok resp2 =>
      show List.map Ev.send p.items ++
          (if (!p.hasMore) = true then [Ev.close]
           else Ev.fetch (sinceParams p) :: campaignStats feed2 resp2) =
        List.map Ev.send p.items ++
          (if (!p.hasMore) = true then [Ev.close]
           else Ev.fetch (sinceParams p) :: items feed2 resp2)
      rw [ih]
    | err e => rfl
    | panicked => rfl

theorem appItems_eq_items {α : Type} (feed : List (GetResult (Page α))) (p : Page α) :
    appItems feed p = items feed p := by
  induction feed generalizing p with
  | nil => rfl
  | cons r feed2 ih =>
    cases r with
    | ok resp2 =>
      show List.map Ev.send p.items ++
          (if (!p.hasMore) = true then [Ev.close]
           else Ev.fetch (sinceParams p) :: appItems feed2 resp2) =
        List.map Ev.send p.items ++
          (if (!p.hasMore) = true then [Ev.close]
           else Ev.fetch (sinceParams p) :: items feed2 resp2)
      rw [ih]
    | err e => rfl
    | panicked => rfl

/-! ## Claims -/

/-- Claim C1: for any finite sequence of pages in which every page except the
last has `hasMore = true` and the last has `hasMore = false` (`chainOK`), the
item channel returned by `Iterate` — whose worker starts on the synchronously
fetched first page — yields exactly the concatenation of all pages' items in
server page order (no item omitted, duplicated or reordered), and is then
closed exactly once: the trace is a close-free prefix followed by a single
terminal close event. -/
theorem iterate_stream_yields_concat_then_closes {α : Type}
    (transport : Request → Except String String)
    (decode : String → Except String (Page α)) (auth buttonID : String)
    (params0 : List (String × String)) (p : Page α) (qs : List (Page α))
    (hIter : FeedbackItems.Iterate transport decode auth buttonID params0
      = IterateResult.channel p)
    (hchain : chainOK p qs = true) :
    emittedOf (items (qs.map GetResult.ok) p) = ((p :: qs).map Page.items).flatten
    ∧ ∃ u, items (qs.map GetResult.ok) p = u ++ [Ev.close] ∧ closeCount u = 0 :=
  items_chainOK qs p hchain

/-- Witness for C1: a two-page run (items 1,2 then 3) yields 1,2,3 and closes
once. -/
theorem iterate_stream_yields_concat_then_closes_witness :
    (FeedbackItems.Iterate (fun _ => Except.ok "body")
        (fun _ => Except.ok ({items := [1, 2], hasMore := true, lastTimestamp := 100} : Page Nat))
        "key" "b1" [("limit", "5")]
      = IterateResult.channel {items := [1, 2], hasMore := true, lastTimestamp := 100}
    ∧ chainOK ({items := [1, 2], hasMore := true, lastTimestamp := 100} : Page Nat)
        [{items := [3], hasMore := false, lastTimestamp := 150}] = true)
    ∧ (emittedOf (items ([{items := [3], hasMore := false, lastTimestamp := 150}].map GetResult.ok)
          ({items := [1, 2], hasMore := true, lastTimestamp := 100} : Page Nat))
        = ((({items := [1, 2], hasMore := true, lastTimestamp := 100} : Page Nat)
              :: [{items := [3], hasMore := false, lastTimestamp := 150}]).map Page.items).flatten
      ∧ ∃ u, items ([{items := [3], hasMore := false, lastTimestamp := 150}].map GetResult.ok)
            ({items := [1, 2], hasMore := true, lastTimestamp := 100} : Page Nat)
          = u ++ [Ev.close] ∧ closeCount u = 0) :=
  ⟨⟨rfl, by decide⟩,
    iterate_stream_yields_concat_then_closes (fun _ => Except.ok "body")
      (fun _ => Except.ok {items := [1, 2], hasMore := true, lastTimestamp := 100})
      "key" "b1" [("limit", "5")] _ _ rfl (by decide)⟩

/-- Claim C2 counterexample: a stream opened with filter `limit = 5` performs
its second fetch with the parameter map `[("since", "100")]` — the literal
singleton map each worker builds — which does not contain the `limit` key,
so the other filter parameters of the original request are NOT passed
through: the claim as stated is false on this input. -/
theorem second_fetch_drops_limit_cex :
    FeedbackItems.Iterate (fun _ => Except.ok "body")
        (fun _ => Except.ok ({items := [0], hasMore := true, lastTimestamp := 100} : Page Nat))
        "key" "b1" [("limit", "5")]
      = IterateResult.channel {items := [0], hasMore := true, lastTimestamp := 100}
    ∧ items [GetResult.ok ({items := [1], hasMore := false, lastTimestamp := 150} : Page Nat)]
        ({items := [0], hasMore := true, lastTimestamp := 100} : Page Nat)
      = [Ev.send 0, Ev.fetch [("since", "100")], Ev.send 1, Ev.close]
    ∧ List.lookup "limit" [("since", "100")] = none :=
  ⟨rfl, by decide, rfl⟩

/-- Claim C2 (amended): for every fetch after the first — the fetch event
preceded by exactly `n` fetch events — the parameter map passed to the
fetcher is exactly the singleton map binding `since` to the decimal encoding
of the immediately preceding page's returned watermark (`LastTimestamp`);
every other key of the original filter parameters (e.g. `limit`) is absent
from it, i.e. dropped rather than passed through. -/
theorem later_fetch_params_exactly_since {α : Type} (feed : List (GetResult (Page α)))
    (p : Page α) (n : Nat) (hn : n < numFetches feed p) :
    ∃ u v, items feed p
        = u ++ Ev.fetch
            [("since", toString (((runPages feed p).getD n defaultPage).lastTimestamp))] :: v
      ∧ fetchCount u = n
      ∧ ∀ k, k ≠ "since" →
          List.lookup k
            [("since", toString (((runPages feed p).getD n defaultPage).lastTimestamp))]
            = none := by
  obtain ⟨u, v, heq, hf, hs⟩ := items_fetch_split feed p n hn
  refine ⟨u, v, heq, hf, ?_⟩
  intro k hk
  have hbeq : (k == "since") = false := beq_eq_false_iff_ne.mpr hk
  simp [List.lookup, hbeq]

/-- Witness for the amended C2: in a two-page run, the single in-stream fetch
uses exactly the since-singleton map of the first page's watermark. -/
theorem later_fetch_params_exactly_since_witness :
    0 < numFetches [GetResult.ok ({items := [1], hasMore := false, lastTimestamp := 150} : Page Nat)]
        ({items := [0], hasMore := true, lastTimestamp := 100} : Page Nat)
    ∧ ∃ u v,
        items [GetResult.ok ({items := [1], hasMore := false, lastTimestamp := 150} : Page Nat)]
          ({items := [0], hasMore := true, lastTimestamp := 100} : Page Nat)
          = u ++ Ev.fetch
              [("since", toString (((runPages
                  [GetResult.ok ({items := [1], hasMore := false, lastTimestamp := 150} : Page Nat)]
                  ({items := [0], hasMore := true, lastTimestamp := 100} : Page Nat)).getD 0
                    defaultPage).lastTimestamp))] :: v
        ∧ fetchCount u = 0
        ∧ ∀ k, k ≠ "since" →
            List.lookup k
              [("since", toString (((runPages
                  [GetResult.ok ({items := [1], hasMore := false, lastTimestamp := 150} : Page Nat)]
                  ({items := [0], hasMore := true, lastTimestamp := 100} : Page Nat)).getD 0
                    defaultPage).lastTimestamp))] = none :=
  ⟨by decide,
    later_fetch_params_exactly_since
      [GetResult.ok ({items := [1], hasMore := false, lastTimestamp := 150} : Page Nat)]
      ({items := [0], hasMore := true, lastTimestamp := 100} : Page Nat) 0 (by decide)⟩

/-- Claim C3: if the k-th page fetch (k > 1) of a stream fails — a run whose
feed is k-2 successful pages after the synchronously fetched first page
followed by one failing fetch result (`chainMore` makes every fetched page
ask for more) — then the consumer observes on the channel exactly the items
of pages 1..k-1, the trace contains no close event at all (so the abnormal
termination is distinguishable from normal end-of-stream), it ends in the
panic taken after the failed fetch, and no item of the partially fetched
page k is ever delivered (the failed fetch contributes no page). -/
theorem mid_stream_failure_observed {α : Type} (qs : List (Page α)) (p : Page α)
    (h : chainMore p qs = true) :
    emittedOf (items (qs.map GetResult.ok ++ [GetResult.panicked]) p)
        = ((p :: qs).map Page.items).flatten
    ∧ closeCount (items (qs.map GetResult.ok ++ [GetResult.panicked]) p) = 0
    ∧ ∃ u, items (qs.map GetResult.ok ++ [GetResult.panicked]) p = u ++ [Ev.panic] :=
  items_chainMore qs p h

/-- Witness for C3: two pages delivered (items 1,2 then 3), third fetch
fails: exactly 1,2,3 are observed, no close, trailing panic. -/
theorem mid_stream_failure_observed_witness :
    chainMore ({items := [1, 2], hasMore := true, lastTimestamp := 100} : Page Nat)
        [{items := [3], hasMore := true, lastTimestamp := 150}] = true
    ∧ (emittedOf (items ([{items := [3], hasMore := true, lastTimestamp := 150}].map GetResult.ok
            ++ [GetResult.panicked])
          ({items := [1, 2], hasMore := true, lastTimestamp := 100} : Page Nat))
        = ((({items := [1, 2], hasMore := true, lastTimestamp := 100} : Page Nat)
              :: [{items := [3], hasMore := true, lastTimestamp := 150}]).map Page.items).flatten
      ∧ closeCount (items ([{items := [3], hasMore := true, lastTimestamp := 150}].map GetResult.ok
            ++ [GetResult.panicked])
          ({items := [1, 2], hasMore := true, lastTimestamp := 100} : Page Nat)) = 0
      ∧ ∃ u, items ([{items := [3], hasMore := true, lastTimestamp := 150}].map GetResult.ok
            ++ [GetResult.panicked])
          ({items := [1, 2], hasMore := true, lastTimestamp := 100} : Page Nat)
          = u ++ [Ev.panic]) :=
  ⟨by decide,
    mid_stream_failure_observed [{items := [3], hasMore := true, lastTimestamp := 150}]
      {items := [1, 2], hasMore := true, lastTimestamp := 100} (by decide)⟩

/-- Claim C4: fetches are serialized and demand-driven.  In the source every
worker goroutine performs its (unbuffered, consumer-synchronised) sends,
then performs its single blocking fetch, and only then spawns the successor
worker, so a stream's run is one sequential trace in which at most one fetch
is ever in flight.  This theorem locates each in-stream fetch in that trace:
the fetch event preceded by exactly `n` fetch events comes after a prefix
containing exactly the sends of every item of pages 1..n+1 — in particular
the (n+1)-th in-stream fetch (the (n+2)-th fetch of the stream counting the
open-time one) is never issued before every item of the page before it has
been handed to (received by) the consumer. -/
theorem fetch_only_after_page_delivered {α : Type} (feed : List (GetResult (Page α)))
    (p : Page α) (n : Nat) (hn : n < numFetches feed p) :
    ∃ u v, items feed p
        = u ++ Ev.fetch (sinceParams ((runPages feed p).getD n defaultPage)) :: v
      ∧ fetchCount u = n
      ∧ sendCount u = (((runPages feed p).take (n + 1)).map (fun q => q.items.length)).sum :=
  items_fetch_split feed p n hn

/-- Witness for C4: in a three-page run the second in-stream fetch happens
after the three items of the first two pages were all delivered. -/
theorem fetch_only_after_page_delivered_witness :
    1 < numFetches
        [GetResult.ok ({items := [2], hasMore := true, lastTimestamp := 150} : Page Nat),
          GetResult.ok ({items := [3], hasMore := false, lastTimestamp := 200} : Page Nat)]
        ({items := [0, 1], hasMore := true, lastTimestamp := 100} : Page Nat)
    ∧ ∃ u v,
        items [GetResult.ok ({items := [2], hasMore := true, lastTimestamp := 150} : Page Nat),
            GetResult.ok ({items := [3], hasMore := false, lastTimestamp := 200} : Page Nat)]
          ({items := [0, 1], hasMore := true, lastTimestamp := 100} : Page Nat)
          = u ++ Ev.fetch (sinceParams ((runPages
              [GetResult.ok ({items := [2], hasMore := true, lastTimestamp := 150} : Page Nat),
                GetResult.ok ({items := [3], hasMore := false, lastTimestamp := 200} : Page Nat)]
              ({items := [0, 1], hasMore := true, lastTimestamp := 100} : Page Nat)).getD 1
                defaultPage)) :: v
        ∧ fetchCount u = 1
        ∧ sendCount u = (((runPages
              [GetResult.ok ({items := [2], hasMore := true, lastTimestamp := 150} : Page Nat),
                GetResult.ok ({items := [3], hasMore := false, lastTimestamp := 200} : Page Nat)]
              ({items := [0, 1], hasMore := true, lastTimestamp := 100} : Page Nat)).take 2).map
                (fun q => q.items.length)).sum :=
  ⟨by decide,
    fetch_only_after_page_delivered
      [GetResult.ok ({items := [2], hasMore := true, lastTimestamp := 150} : Page Nat),
        GetResult.ok ({items := [3], hasMore := false, lastTimestamp := 200} : Page Nat)]
      ({items := [0, 1], hasMore := true, lastTimestamp := 100} : Page Nat) 1 (by decide)⟩

/-- Claim C5 counterexample: when the open-time fetch fails (transport
error), `Iterate` does NOT return an error value to the caller — it panics.
On this concrete failing input the outcome is `IterateResult.panicked`, and
the exhaustiveness conjunct shows the result type of `Iterate` (which
mirrors the Go signature `Iterate(...) chan FeedbackItem`, with no error
component) has no error-carrying outcome at all: the failure surfaces as a
panic, never as a returned error value. -/
theorem iterate_initial_failure_not_error_value_cex :
    FeedbackItems.Iterate (fun _ => Except.error "boom")
        (fun _ => Except.ok ({items := [], hasMore := false, lastTimestamp := 0} : Page Nat))
        "key" "b1" []
      = IterateResult.panicked
    ∧ ∀ r : IterateResult Nat, r = IterateResult.panicked ∨ ∃ q, r = IterateResult.channel q := by
  refine ⟨rfl, ?_⟩
  intro r
  cases r with
  | panicked => exact Or.inl rfl
  | channel q => exact Or.inr ⟨q, rfl⟩

/-- Claim C5 (amended): when the initial (open-time) page fetch fails —
either the transport errs (inside `Get`) or the decoder returns a non-nil
error (checked in `Iterate`) — `Iterate` panics synchronously at the call
site: the caller observes the failure directly, no channel is created and
nothing is ever delivered through the stream; but the failure is a panic,
not a returned error value (the signature returns only the channel). -/
theorem iterate_initial_failure_panics {α : Type}
    (transport : Request → Except String String)
    (decode : String → Except String (Page α)) (auth buttonID : String)
    (params : List (String × String))
    (h : (∃ e, transport (FeedbackItems.request auth buttonID params) = Except.error e)
      ∨ (∃ data e, transport (FeedbackItems.request auth buttonID params) = Except.ok data
          ∧ decode data = Except.error e)) :
    FeedbackItems.Iterate transport decode auth buttonID params = IterateResult.panicked := by
  rcases h with ⟨e, he⟩ | ⟨data, e, hd, he⟩
  · simp [FeedbackItems.Iterate, FeedbackItems.Get, he]
  · simp [FeedbackItems.Iterate, FeedbackItems.Get, hd, he]

/-- Witness for the amended C5: a transport that always fails makes
`Iterate` panic. -/
theorem iterate_initial_failure_panics_witness :
    ((∃ e, (fun (_ : Request) => (Except.error "boom" : Except String String))
          (FeedbackItems.request "key" "b1" []) = Except.error e)
      ∨ (∃ data e, (fun (_ : Request) => (Except.error "boom" : Except String String))
            (FeedbackItems.request "key" "b1" []) = Except.ok data
          ∧ (fun (_ : String) =>
                (Except.ok ({items := [], hasMore := false, lastTimestamp := 0} : Page Nat)
                  : Except String (Page Nat))) data = Except.error e))
    ∧ FeedbackItems.Iterate (fun _ => Except.error "boom")
        (fun _ => Except.ok ({items := [], hasMore := false, lastTimestamp := 0} : Page Nat))
        "key" "b1" [] = IterateResult.panicked :=
  ⟨Or.inl ⟨"boom", rfl⟩,
    iterate_initial_failure_panics (fun _ => Except.error "boom")
      (fun _ => Except.ok {items := [], hasMore := false, lastTimestamp := 0})
      "key" "b1" [] (Or.inl ⟨"boom", rfl⟩)⟩

/-- Claim C6: a page with zero items and `hasMore = true` makes the worker
emit nothing for that page — the very first trace event is already the next
fetch, carrying the page's own watermark as `since` — and never terminates
the stream: when the fetch succeeds the run continues as the worker of the
fetched page. -/
theorem empty_page_refetches_immediately {α : Type} (feed : List (GetResult (Page α)))
    (p : Page α) (h1 : p.items = []) (h2 : p.hasMore = true) :
    (items feed p).head? = some (Ev.fetch [("since", toString p.lastTimestamp)])
    ∧ ∀ q feed2, feed = GetResult.ok q :: feed2 →
        items feed p = Ev.fetch [("since", toString p.lastTimestamp)] :: items feed2 q := by
  constructor
  · rw [items.eq_def]
    simp [h1, h2, sinceParams]
  · intro q feed2 hfeed
    subst hfeed
    rw [items_more_ok feed2 p q h2, h1]
    simp [sinceParams]

/-- Witness for C6: an empty page with `hasMore = true` and watermark 100
immediately fetches with since = "100" and continues. -/
theorem empty_page_refetches_immediately_witness :
    (({items := [], hasMore := true, lastTimestamp := 100} : Page Nat).items = []
      ∧ ({items := [], hasMore := true, lastTimestamp := 100} : Page Nat).hasMore = true)
    ∧ ((items [GetResult.ok ({items := [7], hasMore := false, lastTimestamp := 150} : Page Nat)]
          ({items := [], hasMore := true, lastTimestamp := 100} : Page Nat)).head?
        = some (Ev.fetch [("since",
            toString ({items := [], hasMore := true, lastTimestamp := 100}
              : Page Nat).lastTimestamp)])
      ∧ ∀ q feed2,
          [GetResult.ok ({items := [7], hasMore := false, lastTimestamp := 150} : Page Nat)]
            = GetResult.ok q :: feed2 →
          items [GetResult.ok ({items := [7], hasMore := false, lastTimestamp := 150} : Page Nat)]
            ({items := [], hasMore := true, lastTimestamp := 100} : Page Nat)
            = Ev.fetch [("since",
                toString ({items := [], hasMore := true, lastTimestamp := 100}
                  : Page Nat).lastTimestamp)] :: items feed2 q) :=
  ⟨⟨rfl, rfl⟩,
    empty_page_refetches_immediately
      [GetResult.ok ({items := [7], hasMore := false, lastTimestamp := 150} : Page Nat)]
      ({items := [], hasMore := true, lastTimestamp := 100} : Page Nat) rfl rfl⟩

/-- Claim C7: the cursor only advances after full delivery.  The `since`
watermark used by the fetch preceded by exactly `n` fetch events is exactly
the `LastTimestamp` of the page the worker just drained (page n+1 of the
run), and the trace prefix before that fetch already contains the sends of
all items of pages 1..n and of every item of page n+1 itself — the cursor
never advances ahead of delivered items, so no item of an already fetched
page is skipped. -/
theorem cursor_advances_only_after_delivery {α : Type} (feed : List (GetResult (Page α)))
    (p : Page α) (n : Nat) (hn : n < numFetches feed p) :
    ∃ u v, items feed p
        = u ++ Ev.fetch
            [("since", toString (((runPages feed p).getD n defaultPage).lastTimestamp))] :: v
      ∧ fetchCount u = n
      ∧ (((runPages feed p).take n).map (fun q => q.items.length)).sum
          + ((runPages feed p).getD n defaultPage).items.length ≤ sendCount u := by
  obtain ⟨u, v, heq, hf, hs⟩ := items_fetch_split feed p n hn
  refine ⟨u, v, heq, hf, ?_⟩
  have hlen : n < (runPages feed p).length :=
    lt_of_lt_of_le hn (numFetches_le_runPages_length feed p)
  rw [hs, sum_take_succ_getD (runPages feed p) n hlen]

/-- Witness for C7: the only in-stream fetch of a two-page run uses the
first page's watermark and happens after both of its items were sent. -/
theorem cursor_advances_only_after_delivery_witness :
    0 < numFetches [GetResult.ok ({items := [9], hasMore := false, lastTimestamp := 150} : Page Nat)]
        ({items := [4, 5], hasMore := true, lastTimestamp := 100} : Page Nat)
    ∧ ∃ u v,
        items [GetResult.ok ({items := [9], hasMore := false, lastTimestamp := 150} : Page Nat)]
          ({items := [4, 5], hasMore := true, lastTimestamp := 100} : Page Nat)
          = u ++ Ev.fetch
              [("since", toString (((runPages
                  [GetResult.ok ({items := [9], hasMore := false, lastTimestamp := 150} : Page Nat)]
                  ({items := [4, 5], hasMore := true, lastTimestamp := 100} : Page Nat)).getD 0
                    defaultPage).lastTimestamp))] :: v
        ∧ fetchCount u = 0
        ∧ (((runPages
              [GetResult.ok ({items := [9], hasMore := false, lastTimestamp := 150} : Page Nat)]
              ({items := [4, 5], hasMore := true, lastTimestamp := 100} : Page Nat)).take 0).map
                (fun q => q.items.length)).sum
            + ((runPages
                [GetResult.ok ({items := [9], hasMore := false, lastTimestamp := 150} : Page Nat)]
                ({items := [4, 5], hasMore := true, lastTimestamp := 100} : Page Nat)).getD 0
                  defaultPage).items.length ≤ sendCount u :=
  ⟨by decide,
    cursor_advances_only_after_delivery
      [GetResult.ok ({items := [9], hasMore := false, lastTimestamp := 150} : Page Nat)]
      ({items := [4, 5], hasMore := true, lastTimestamp := 100} : Page Nat) 0 (by decide)⟩

/-- Claim C8: each per-resource fetcher builds its request URI from the
family's fixed template with the parent resource ID substituted — button
feedback uses `/live/websites/button/{id}/feedback`, app feedback uses
`/live/apps/{id}/feedback`, campaign results uses
`/live/websites/campaign/{id}/results`, campaign stats uses
`/live/websites/campaign/{id}/stats` — and the request carries the caller's
parameter map through to the transport unchanged. -/
theorem resource_uris_and_params_passthrough (auth id : String)
    (params : List (String × String)) :
    ((FeedbackItems.request auth id params).uri = "/live/websites/button/" ++ id ++ "/feedback"
      ∧ (FeedbackItems.request auth id params).params = params)
    ∧ ((AppFeedbackItems.request auth id params).uri = "/live/apps/" ++ id ++ "/feedback"
      ∧ (AppFeedbackItems.request auth id params).params = params)
    ∧ ((CampaignResults.request auth id params).uri
          = "/live/websites/campaign/" ++ id ++ "/results"
      ∧ (CampaignResults.request auth id params).params = params)
    ∧ ((CampaignStats.request auth id params).uri = "/live/websites/campaign/" ++ id ++ "/stats"
      ∧ (CampaignStats.request auth id params).params = params) :=
  ⟨⟨rfl, rfl⟩, ⟨rfl, rfl⟩, ⟨rfl, rfl⟩, ⟨rfl, rfl⟩⟩

/-- Claim C9: the four worker functions (`items`, `campaignResults`,
`campaignStats`, `appItems`) implement the same abstract pagination
algorithm: on equal abstract inputs (same first page and same feed of fetch
results, over any item type) all four produce the same trace — hence the
same delivered item sequence and the same termination behaviour. -/
theorem four_workers_one_algorithm {α : Type} (feed : List (GetResult (Page α)))
    (p : Page α) :
    campaignResults feed p = items feed p
    ∧ campaignStats feed p = items feed p
    ∧ appItems feed p = items feed p :=
  ⟨campaignResults_eq_items feed p, campaignStats_eq_items feed p, appItems_eq_items feed p⟩

/-- Claim C10: every public `Get` method panics when the transport call
returns an error — with an always-failing transport every one of the eight
`Get` methods ends in `panicked`, returning no error value to the caller —
and a non-nil error returned by `Get` can only originate from response
decoding: with a succeeding transport and a failing decoder, every `Get`
returns exactly the decoder's error. -/
theorem get_error_only_from_decode {ρ : Type} (tFail tOk : Request → Except String String)
    (e data d : String) (decode : String → Except String ρ)
    (h1 : ∀ r, tFail r = Except.error e) (h2 : ∀ r, tOk r = Except.ok data)
    (h3 : decode data = Except.error d) :
    (∀ auth id params,
        Buttons.Get tFail decode auth params = GetResult.panicked
      ∧ FeedbackItems.Get tFail decode auth id params = GetResult.panicked
      ∧ Campaigns.Get tFail decode auth params = GetResult.panicked
      ∧ CampaignResults.Get tFail decode auth id params = GetResult.panicked
      ∧ CampaignStats.Get tFail decode auth id params = GetResult.panicked
      ∧ Apps.Get tFail decode auth params = GetResult.panicked
      ∧ AppFeedbackItems.Get tFail decode auth id params = GetResult.panicked
      ∧ EmailButtons.Get tFail decode auth params = GetResult.panicked)
    ∧ (∀ auth id params,
        Buttons.Get tOk decode auth params = GetResult.err d
      ∧ FeedbackItems.Get tOk decode auth id params = GetResult.err d
      ∧ Campaigns.Get tOk decode auth params = GetResult.err d
      ∧ CampaignResults.Get tOk decode auth id params = GetResult.err d
      ∧ CampaignStats.Get tOk decode auth id params = GetResult.err d
      ∧ Apps.Get tOk decode auth params = GetResult.err d
      ∧ AppFeedbackItems.Get tOk decode auth id params = GetResult.err d
      ∧ EmailButtons.Get tOk decode auth params = GetResult.err d) := by
  constructor
  · intro auth id params
    refine ⟨?_, ?_, ?_, ?_, ?_, ?_, ?_, ?_⟩ <;>
      simp [Buttons.Get, FeedbackItems.Get, Campaigns.Get, CampaignResults.Get,
        CampaignStats.Get, Apps.Get, AppFeedbackItems.Get, EmailButtons.Get, h1]
  · intro auth id params
    refine ⟨?_, ?_, ?_, ?_, ?_, ?_, ?_, ?_⟩ <;>
      simp [Buttons.Get, FeedbackItems.Get, Campaigns.Get, CampaignResults.Get,
        CampaignStats.Get, Apps.Get, AppFeedbackItems.Get, EmailButtons.Get, h2, h3]

/-- Witness for C10: concrete failing transport and failing decoder. -/
theorem get_error_only_from_decode_witness :
    (Buttons.Get (fun _ => Except.error "te") (fun _ => (Except.error "de" : Except String Nat))
        "k" [] = GetResult.panicked
      ∧ FeedbackItems.Get (fun _ => Except.error "te")
          (fun _ => (Except.error "de" : Except String Nat)) "k" "i" [] = GetResult.panicked
      ∧ Campaigns.Get (fun _ => Except.error "te")
          (fun _ => (Except.error "de" : Except String Nat)) "k" [] = GetResult.panicked
      ∧ CampaignResults.Get (fun _ => Except.error "te")
          (fun _ => (Except.error "de" : Except String Nat)) "k" "i" [] = GetResult.panicked
      ∧ CampaignStats.Get (fun _ => Except.error "te")
          (fun _ => (Except.error "de" : Except String Nat)) "k" "i" [] = GetResult.panicked
      ∧ Apps.Get (fun _ => Except.error "te")
          (fun _ => (Except.error "de" : Except String Nat)) "k" [] = GetResult.panicked
      ∧ AppFeedbackItems.Get (fun _ => Except.error "te")
          (fun _ => (Except.error "de" : Except String Nat)) "k" "i" [] = GetResult.panicked
      ∧ EmailButtons.Get (fun _ => Except.error "te")
          (fun _ => (Except.error "de" : Except String Nat)) "k" [] = GetResult.panicked)
    ∧ (Buttons.Get (fun _ => Except.ok "data") (fun _ => (Except.error "de" : Except String Nat))
        "k" [] = GetResult.err "de"
      ∧ FeedbackItems.Get (fun _ => Except.ok "data")
          (fun _ => (Except.error "de" : Except String Nat)) "k" "i" [] = GetResult.err "de"
      ∧ Campaigns.Get (fun _ => Except.ok "data")
          (fun _ => (Except.error "de" : Except String Nat)) "k" [] = GetResult.err "de"
      ∧ CampaignResults.Get (fun _ => Except.ok "data")
          (fun _ => (Except.error "de" : Except String Nat)) "k" "i" [] = GetResult.err "de"
      ∧ CampaignStats.Get (fun _ => Except.ok "data")
          (fun _ => (Except.error "de" : Except String Nat)) "k" "i" [] = GetResult.err "de"
      ∧ Apps.Get (fun _ => Except.ok "data")
          (fun _ => (Except.error "de" : Except String Nat)) "k" [] = GetResult.err "de"
      ∧ AppFeedbackItems.Get (fun _ => Except.ok "data")
          (fun _ => (Except.error "de" : Except String Nat)) "k" "i" [] = GetResult.err "de"
      ∧ EmailButtons.Get (fun _ => Except.ok "data")
          (fun _ => (Except.error "de" : Except String Nat)) "k" [] = GetResult.err "de") :=
  ⟨(get_error_only_from_decode (fun _ => Except.error "te") (fun _ => Except.ok "data")
      "te" "data" "de" (fun _ => Except.error "de") (fun _ => rfl) (fun _ => rfl) rfl).1
      "k" "i" [],
    (get_error_only_from_decode (fun _ => Except.error "te") (fun _ => Except.ok "data")
      "te" "data" "de" (fun _ => Except.error "de") (fun _ => rfl) (fun _ => rfl) rfl).2
      "k" "i" []⟩
